import Mathlib

/-!
Shallow embedding of `src/state_policies.py`: a static catalog of U.S.
state tobacco/vaping policy records (`STATES`), a JSON exporter
(`export_to_json`) and a console summary reporter
(`generate_summary_stats`), together with proofs of the spec's claims
about them.
-/

/-- Mirror of the Python dataclass `StateTobaccoPolicy`
(src/state_policies.py lines 17-58), fields in declaration order with the
same defaults.  Python `Optional[str] = None` becomes `Option String :=
none`; `int` ages are `Nat`. -/
structure StateTobaccoPolicy where
  state : String
  state_abbr : String
  flavored_ecig_ban : String
  flavored_ecig_details : String
  flavored_ecig_effective_date : Option String := none
  menthol_cig_ban : Bool := false
  menthol_ban_details : String := ""
  menthol_effective_date : Option String := none
  has_ecig_tax : Bool := false
  ecig_tax_rate : String := ""
  ecig_tax_structure : String := ""
  indoor_vaping_ban : Bool := false
  indoor_ban_details : String := ""
  minimum_age : Nat := 21
  state_t21_law : Bool := false
  licensing_required : Bool := false
  license_fee : String := ""
  local_restrictions : List String := []
  recent_changes : String := ""
  sources : List String := []
deriving DecidableEq, Repr
def STATES : List StateTobaccoPolicy := [
  { state := "Alabama",
    state_abbr := "AL",
    flavored_ecig_ban := "none",
    flavored_ecig_details := "No statewide restrictions on flavored e-cigarettes",
    has_ecig_tax := false,
    indoor_vaping_ban := false,
    state_t21_law := false,
    sources := ["Tax Foundation 2025", "Truth Initiative 2025"] },
  { state := "Alaska",
    state_abbr := "AK",
    flavored_ecig_ban := "none",
    flavored_ecig_details := "No statewide restrictions on flavored e-cigarettes",
    has_ecig_tax := false,
    ecig_tax_rate := "No statewide tax, but several municipalities impose taxes: Juneau (45%), Anchorage (55%), Matanuska-Susitna (55%)",
    indoor_vaping_ban := false,
    state_t21_law := true,
    sources := ["Tax Foundation 2025", "ComplyIQ 2025"] },
  { state := "Arizona",
    state_abbr := "AZ",
    flavored_ecig_ban := "none",
    flavored_ecig_details := "No statewide restrictions on flavored e-cigarettes",
    has_ecig_tax := false,
    indoor_vaping_ban := false,
    state_t21_law := true,
    sources := ["Tax Foundation 2025", "Truth Initiative 2025"] },
  { state := "Arkansas",
    state_abbr := "AR",
    flavored_ecig_ban := "none",
    flavored_ecig_details := "No statewide restrictions on flavored e-cigarettes",
    has_ecig_tax := false,
    indoor_vaping_ban := false,
    state_t21_law := true,
    sources := ["Tax Foundation 2025"] },
  { state := "California",
    state_abbr := "CA",
    flavored_ecig_ban := "comprehensive",
    flavored_ecig_details := "Comprehensive ban on all flavored tobacco products including menthol. Voters upheld the ban in November 2022.",
    flavored_ecig_effective_date := some "2022-12-21",
    menthol_cig_ban := true,
    menthol_ban_details := "Statewide ban on menthol cigarettes, approved by voters in 2022",
    menthol_effective_date := some "2022-12-21",
    has_ecig_tax := true,
    ecig_tax_rate := "12.5% wholesale, rising to 56.67% by July 1, 2026",
    ecig_tax_structure := "wholesale %",
    indoor_vaping_ban := true,
    indoor_ban_details := "Comprehensive smoke-free law covering e-cigarettes in workplaces, restaurants, and bars",
    state_t21_law := true,
    recent_changes := "As of Jan 1, 2025, flavor prohibition extended to internet sales. AB 3218 prohibits menthol-like cooling sensations (WS-3, WS-23). SB 1230 allows seizure of illegal flavored products.",
    local_restrictions := ["Numerous cities and counties with additional restrictions"],
    sources := ["Campaign for Tobacco-Free Kids 2024", "VapeRanger 2025", "Truth Initiative 2025"] },
  { state := "Colorado",
    state_abbr := "CO",
    flavored_ecig_ban := "partial",
    flavored_ecig_details := "State law bans flavored vape products except tobacco and menthol flavors",
    has_ecig_tax := true,
    ecig_tax_rate := "30% wholesale (open), 50% wholesale (closed)",
    ecig_tax_structure := "wholesale %",
    indoor_vaping_ban := true,
    indoor_ban_details := "Comprehensive smoke-free law covering e-cigarettes",
    state_t21_law := true,
    sources := ["Tax Foundation 2025", "VapeRanger 2025"] },
  { state := "Connecticut",
    state_abbr := "CT",
    flavored_ecig_ban := "none",
    flavored_ecig_details := "No statewide flavor ban",
    has_ecig_tax := true,
    ecig_tax_rate := "$0.40 per mL",
    ecig_tax_structure := "per mL",
    indoor_vaping_ban := true,
    indoor_ban_details := "Comprehensive smoke-free law covering e-cigarettes",
    state_t21_law := true,
    sources := ["Tax Foundation 2025", "Truth Initiative 2025"] },
  { state := "Delaware",
    state_abbr := "DE",
    flavored_ecig_ban := "partial",
    flavored_ecig_details := "Illegal to sell flavored single-use disposable vapes",
    has_ecig_tax := true,
    ecig_tax_rate := "$1.25 per mL",
    ecig_tax_structure := "per mL",
    indoor_vaping_ban := true,
    indoor_ban_details := "Comprehensive smoke-free law covering e-cigarettes",
    licensing_required := true,
    license_fee := "$800/year",
    state_t21_law := true,
    sources := ["Tax Foundation 2025", "Ecigator 2025", "Truth Initiative 2025"] },
  { state := "Florida",
    state_abbr := "FL",
    flavored_ecig_ban := "none",
    flavored_ecig_details := "No statewide restrictions on flavored e-cigarettes",
    has_ecig_tax := false,
    indoor_vaping_ban := false,
    state_t21_law := false,
    sources := ["Tax Foundation 2025"] },
  { state := "Georgia",
    state_abbr := "GA",
    flavored_ecig_ban := "none",
    flavored_ecig_details := "No statewide restrictions on flavored e-cigarettes",
    has_ecig_tax := true,
    ecig_tax_rate := "7% wholesale",
    ecig_tax_structure := "wholesale %",
    indoor_vaping_ban := false,
    state_t21_law := true,
    sources := ["Tax Foundation 2025"] },
  { state := "Hawaii",
    state_abbr := "HI",
    flavored_ecig_ban := "none",
    flavored_ecig_details := "No statewide flavor ban",
    has_ecig_tax := true,
    ecig_tax_rate := "70% wholesale",
    ecig_tax_structure := "wholesale %",
    indoor_vaping_ban := true,
    indoor_ban_details := "Comprehensive smoke-free law covering e-cigarettes",
    state_t21_law := true,
    sources := ["Tax Foundation 2025", "Truth Initiative 2025"] },
  { state := "Idaho",
    state_abbr := "ID",
    flavored_ecig_ban := "none",
    flavored_ecig_details := "No statewide restrictions on flavored e-cigarettes",
    has_ecig_tax := false,
    indoor_vaping_ban := false,
    state_t21_law := false,
    sources := ["Tax Foundation 2025"] },
  { state := "Illinois",
    state_abbr := "IL",
    flavored_ecig_ban := "none",
    flavored_ecig_details := "No statewide flavor ban, but many local restrictions",
    has_ecig_tax := true,
    ecig_tax_rate := "$2.50 per mL",
    ecig_tax_structure := "per mL",
    indoor_vaping_ban := true,
    indoor_ban_details := "Comprehensive smoke-free law covering e-cigarettes",
    licensing_required := true,
    license_fee := "$1,200/year",
    state_t21_law := true,
    local_restrictions := ["Chicago has comprehensive local flavor restrictions"],
    sources := ["Tax Foundation 2025", "Ecigator 2025", "Truth Initiative 2025"] },
  { state := "Indiana",
    state_abbr := "IN",
    flavored_ecig_ban := "none",
    flavored_ecig_details := "No statewide restrictions on flavored e-cigarettes",
    has_ecig_tax := true,
    ecig_tax_rate := "15% wholesale",
    ecig_tax_structure := "wholesale %",
    indoor_vaping_ban := false,
    state_t21_law := true,
    sources := ["Tax Foundation 2025"] },
  { state := "Iowa",
    state_abbr := "IA",
    flavored_ecig_ban := "none",
    flavored_ecig_details := "No statewide restrictions on flavored e-cigarettes",
    has_ecig_tax := false,
    ecig_tax_rate := "Subject to sales tax only",
    indoor_vaping_ban := false,
    state_t21_law := false,
    sources := ["Tax Foundation 2025", "ComplyIQ 2025"] },
  { state := "Kansas",
    state_abbr := "KS",
    flavored_ecig_ban := "none",
    flavored_ecig_details := "No statewide restrictions on flavored e-cigarettes",
    has_ecig_tax := true,
    ecig_tax_rate := "20% retail",
    ecig_tax_structure := "retail %",
    indoor_vaping_ban := true,
    indoor_ban_details := "Comprehensive smoke-free law covering e-cigarettes",
    state_t21_law := true,
    sources := ["Tax Foundation 2025", "Truth Initiative 2025"] },
  { state := "Kentucky",
    state_abbr := "KY",
    flavored_ecig_ban := "none",
    flavored_ecig_details := "No statewide restrictions on flavored e-cigarettes",
    has_ecig_tax := true,
    ecig_tax_rate := "$1.50 per cartridge",
    ecig_tax_structure := "per cartridge",
    indoor_vaping_ban := false,
    state_t21_law := true,
    sources := ["Tax Foundation 2025"] },
  { state := "Louisiana",
    state_abbr := "LA",
    flavored_ecig_ban := "none",
    flavored_ecig_details := "No statewide restrictions on flavored e-cigarettes",
    has_ecig_tax := true,
    ecig_tax_rate := "15% wholesale",
    ecig_tax_structure := "wholesale %",
    indoor_vaping_ban := false,
    state_t21_law := true,
    sources := ["Tax Foundation 2025"] },
  { state := "Maine",
    state_abbr := "ME",
    flavored_ecig_ban := "none",
    flavored_ecig_details := "No statewide flavor ban",
    has_ecig_tax := true,
    ecig_tax_rate := "43% wholesale",
    ecig_tax_structure := "wholesale %",
    indoor_vaping_ban := true,
    indoor_ban_details := "Comprehensive smoke-free law covering e-cigarettes",
    state_t21_law := true,
    sources := ["Tax Foundation 2025", "Truth Initiative 2025"] },
  { state := "Maryland",
    state_abbr := "MD",
    flavored_ecig_ban := "partial",
    flavored_ecig_details := "Limits flavored product sales to age-restricted venues",
    has_ecig_tax := true,
    ecig_tax_rate := "60% retail",
    ecig_tax_structure := "retail %",
    indoor_vaping_ban := true,
    indoor_ban_details := "Comprehensive smoke-free law covering e-cigarettes",
    state_t21_law := true,
    sources := ["Tax Foundation 2025", "Ecigator 2025", "Truth Initiative 2025"] },
  { state := "Massachusetts",
    state_abbr := "MA",
    flavored_ecig_ban := "comprehensive",
    flavored_ecig_details := "First state to ban all flavored tobacco products including menthol cigarettes (effective 2020)",
    flavored_ecig_effective_date := some "2020-06-01",
    menthol_cig_ban := true,
    menthol_ban_details := "Comprehensive ban on menthol cigarettes statewide",
    menthol_effective_date := some "2020-06-01",
    has_ecig_tax := true,
    ecig_tax_rate := "75% wholesale",
    ecig_tax_structure := "wholesale %",
    indoor_vaping_ban := true,
    indoor_ban_details := "Comprehensive smoke-free law covering e-cigarettes",
    state_t21_law := true,
    sources := ["Campaign for Tobacco-Free Kids 2024", "Tax Foundation 2025", "Stateline 2024"] },
  { state := "Michigan",
    state_abbr := "MI",
    flavored_ecig_ban := "none",
    flavored_ecig_details := "No statewide restrictions on flavored e-cigarettes",
    has_ecig_tax := false,
    indoor_vaping_ban := false,
    state_t21_law := true,
    sources := ["Tax Foundation 2025"] },
  { state := "Minnesota",
    state_abbr := "MN",
    flavored_ecig_ban := "none",
    flavored_ecig_details := "No statewide flavor ban",
    has_ecig_tax := true,
    ecig_tax_rate := "95% wholesale",
    ecig_tax_structure := "wholesale %",
    indoor_vaping_ban := false,
    state_t21_law := true,
    sources := ["Tax Foundation 2025"] },
  { state := "Mississippi",
    state_abbr := "MS",
    flavored_ecig_ban := "none",
    flavored_ecig_details := "No statewide restrictions on flavored e-cigarettes",
    has_ecig_tax := false,
    indoor_vaping_ban := false,
    state_t21_law := false,
    sources := ["Tax Foundation 2025"] },
  { state := "Missouri",
    state_abbr := "MO",
    flavored_ecig_ban := "none",
    flavored_ecig_details := "No statewide restrictions on flavored e-cigarettes",
    has_ecig_tax := false,
    indoor_vaping_ban := false,
    state_t21_law := false,
    sources := ["Tax Foundation 2025"] },
  { state := "Montana",
    state_abbr := "MT",
    flavored_ecig_ban := "none",
    flavored_ecig_details := "No statewide restrictions on flavored e-cigarettes",
    has_ecig_tax := false,
    indoor_vaping_ban := false,
    state_t21_law := false,
    sources := ["Tax Foundation 2025"] },
  { state := "Nebraska",
    state_abbr := "NE",
    flavored_ecig_ban := "none",
    flavored_ecig_details := "No statewide restrictions on flavored e-cigarettes",
    has_ecig_tax := true,
    ecig_tax_rate := "20% wholesale",
    ecig_tax_structure := "wholesale %",
    indoor_vaping_ban := false,
    state_t21_law := true,
    sources := ["Tax Foundation 2025"] },
  { state := "Nevada",
    state_abbr := "NV",
    flavored_ecig_ban := "none",
    flavored_ecig_details := "No statewide restrictions on flavored e-cigarettes",
    has_ecig_tax := true,
    ecig_tax_rate := "30% wholesale",
    ecig_tax_structure := "wholesale %",
    indoor_vaping_ban := false,
    state_t21_law := true,
    sources := ["Tax Foundation 2025"] },
  { state := "New Hampshire",
    state_abbr := "NH",
    flavored_ecig_ban := "none",
    flavored_ecig_details := "No statewide restrictions on flavored e-cigarettes",
    has_ecig_tax := true,
    ecig_tax_rate := "8% wholesale (open), $0.30/mL (closed)",
    ecig_tax_structure := "hybrid",
    indoor_vaping_ban := false,
    state_t21_law := true,
    sources := ["Tax Foundation 2025"] },
  { state := "New Jersey",
    state_abbr := "NJ",
    flavored_ecig_ban := "comprehensive",
    flavored_ecig_details := "Comprehensive ban on flavored e-cigarettes (tobacco flavor only allowed). Does NOT ban menthol cigarettes.",
    flavored_ecig_effective_date := some "2020-04-20",
    menthol_cig_ban := false,
    has_ecig_tax := true,
    ecig_tax_rate := "10% retail",
    ecig_tax_structure := "retail %",
    indoor_vaping_ban := true,
    indoor_ban_details := "Comprehensive smoke-free law covering e-cigarettes",
    state_t21_law := true,
    sources := ["Campaign for Tobacco-Free Kids 2024", "Tax Foundation 2025", "VapeRanger 2025"] },
  { state := "New Mexico",
    state_abbr := "NM",
    flavored_ecig_ban := "none",
    flavored_ecig_details := "No statewide restrictions on flavored e-cigarettes",
    has_ecig_tax := true,
    ecig_tax_rate := "$0.50 per cartridge",
    ecig_tax_structure := "per cartridge",
    indoor_vaping_ban := true,
    indoor_ban_details := "Comprehensive smoke-free law covering e-cigarettes",
    state_t21_law := true,
    sources := ["Tax Foundation 2025", "Truth Initiative 2025"] },
  { state := "New York",
    state_abbr := "NY",
    flavored_ecig_ban := "comprehensive",
    flavored_ecig_details := "Comprehensive ban on flavored e-cigarettes (tobacco flavor only allowed). Does NOT ban menthol cigarettes.",
    flavored_ecig_effective_date := some "2020-05-18",
    menthol_cig_ban := false,
    has_ecig_tax := true,
    ecig_tax_rate := "20% retail",
    ecig_tax_structure := "retail %",
    indoor_vaping_ban := true,
    indoor_ban_details := "Comprehensive smoke-free law covering e-cigarettes",
    state_t21_law := true,
    sources := ["Campaign for Tobacco-Free Kids 2024", "Tax Foundation 2025", "VapeRanger 2025"] },
  { state := "North Carolina",
    state_abbr := "NC",
    flavored_ecig_ban := "partial",
    flavored_ecig_details := "As of July 1, 2025, only disposable vapes listed on state directory of FDA-authorized products can be sold",
    flavored_ecig_effective_date := some "2025-07-01",
    has_ecig_tax := true,
    ecig_tax_rate := "12.8% wholesale (open), $0.05/mL (closed)",
    ecig_tax_structure := "hybrid",
    indoor_vaping_ban := false,
    state_t21_law := true,
    recent_changes := "New FDA-authorized product requirement as of July 2025",
    sources := ["Tax Foundation 2025", "VapeRanger 2025"] },
  { state := "North Dakota",
    state_abbr := "ND",
    flavored_ecig_ban := "none",
    flavored_ecig_details := "No statewide restrictions on flavored e-cigarettes",
    has_ecig_tax := false,
    indoor_vaping_ban := true,
    indoor_ban_details := "Comprehensive smoke-free law covering e-cigarettes",
    state_t21_law := true,
    sources := ["Tax Foundation 2025", "Truth Initiative 2025"] },
  { state := "Ohio",
    state_abbr := "OH",
    flavored_ecig_ban := "partial",
    flavored_ecig_details := "Statewide flavor ban enacted in 2025",
    flavored_ecig_effective_date := some "2025",
    has_ecig_tax := true,
    ecig_tax_rate := "10% retail",
    ecig_tax_structure := "retail %",
    indoor_vaping_ban := false,
    state_t21_law := true,
    recent_changes := "State flavor ban enacted 2025. Court ruled state preemption of local tobacco laws unconstitutional (May 2024).",
    local_restrictions := ["Columbus and 13 other municipalities have local flavor restrictions"],
    sources := ["Tax Foundation 2025", "VapeRanger 2025", "Campaign for Tobacco-Free Kids 2024"] },
  { state := "Oklahoma",
    state_abbr := "OK",
    flavored_ecig_ban := "none",
    flavored_ecig_details := "No statewide restrictions on flavored e-cigarettes",
    has_ecig_tax := false,
    indoor_vaping_ban := false,
    state_t21_law := true,
    sources := ["Tax Foundation 2025"] },
  { state := "Oregon",
    state_abbr := "OR",
    flavored_ecig_ban := "none",
    flavored_ecig_details := "No statewide flavor ban, but many local restrictions",
    has_ecig_tax := true,
    ecig_tax_rate := "65% wholesale",
    ecig_tax_structure := "wholesale %",
    indoor_vaping_ban := true,
    indoor_ban_details := "Comprehensive smoke-free law covering e-cigarettes",
    state_t21_law := true,
    recent_changes := "Oregon Court of Appeals upheld Washington County's flavored tobacco law (May 2024)",
    local_restrictions := ["Washington County and other localities have flavor restrictions"],
    sources := ["Tax Foundation 2025", "Campaign for Tobacco-Free Kids 2024", "Truth Initiative 2025"] },
  { state := "Pennsylvania",
    state_abbr := "PA",
    flavored_ecig_ban := "none",
    flavored_ecig_details := "No statewide restrictions on flavored e-cigarettes",
    has_ecig_tax := true,
    ecig_tax_rate := "40% wholesale",
    ecig_tax_structure := "wholesale %",
    indoor_vaping_ban := false,
    state_t21_law := true,
    sources := ["Tax Foundation 2025"] },
  { state := "Rhode Island",
    state_abbr := "RI",
    flavored_ecig_ban := "comprehensive",
    flavored_ecig_details := "Comprehensive ban on flavored e-cigarettes except tobacco and menthol, enforced Jan 1, 2025 (made permanent from 2019 executive order)",
    flavored_ecig_effective_date := some "2025-01-01",
    menthol_cig_ban := false,
    has_ecig_tax := true,
    ecig_tax_rate := "10% wholesale (open), $0.50/mL (closed)",
    ecig_tax_structure := "hybrid",
    indoor_vaping_ban := true,
    indoor_ban_details := "Comprehensive smoke-free law covering e-cigarettes",
    state_t21_law := true,
    recent_changes := "Flavor ban made permanent as of Jan 1, 2025. New e-cig tax enacted Jan 1, 2025.",
    sources := ["Tax Foundation 2025", "VapeRanger 2025", "Campaign for Tobacco-Free Kids 2024"] },
  { state := "South Carolina",
    state_abbr := "SC",
    flavored_ecig_ban := "none",
    flavored_ecig_details := "No statewide restrictions on flavored e-cigarettes",
    has_ecig_tax := false,
    indoor_vaping_ban := false,
    state_t21_law := false,
    sources := ["Tax Foundation 2025"] },
  { state := "South Dakota",
    state_abbr := "SD",
    flavored_ecig_ban := "none",
    flavored_ecig_details := "No statewide restrictions on flavored e-cigarettes",
    has_ecig_tax := false,
    indoor_vaping_ban := false,
    state_t21_law := true,
    sources := ["Tax Foundation 2025"] },
  { state := "Tennessee",
    state_abbr := "TN",
    flavored_ecig_ban := "none",
    flavored_ecig_details := "No statewide restrictions on flavored e-cigarettes",
    has_ecig_tax := false,
    indoor_vaping_ban := false,
    state_t21_law := true,
    sources := ["Tax Foundation 2025"] },
  { state := "Texas",
    state_abbr := "TX",
    flavored_ecig_ban := "partial",
    flavored_ecig_details := "State flavor ban enacted 2025. Additionally, SB 2024 prohibits sale of e-cigarette products made in China and pre-filled with liquid (effective June 2025)",
    flavored_ecig_effective_date := some "2025",
    has_ecig_tax := false,
    indoor_vaping_ban := false,
    state_t21_law := true,
    recent_changes := "Flavor ban and China-made product ban enacted 2025",
    sources := ["Tax Foundation 2025", "VapeRanger 2025"] },
  { state := "Utah",
    state_abbr := "UT",
    flavored_ecig_ban := "comprehensive",
    flavored_ecig_details := "Comprehensive ban on flavored vapes except tobacco and menthol (effective Jan 1, 2025, upheld by federal judge March 2025)",
    flavored_ecig_effective_date := some "2025-01-01",
    menthol_cig_ban := false,
    has_ecig_tax := true,
    ecig_tax_rate := "56% manufacturer",
    ecig_tax_structure := "manufacturer %",
    indoor_vaping_ban := true,
    indoor_ban_details := "Comprehensive smoke-free law covering e-cigarettes",
    state_t21_law := true,
    recent_changes := "Flavor ban effective Jan 1, 2025, upheld by federal court March 2025",
    sources := ["Tax Foundation 2025", "VapeRanger 2025", "Campaign for Tobacco-Free Kids 2024"] },
  { state := "Vermont",
    state_abbr := "VT",
    flavored_ecig_ban := "none",
    flavored_ecig_details := "No statewide restrictions on flavored e-cigarettes",
    has_ecig_tax := true,
    ecig_tax_rate := "92% wholesale",
    ecig_tax_structure := "wholesale %",
    indoor_vaping_ban := true,
    indoor_ban_details := "Comprehensive smoke-free law covering e-cigarettes",
    state_t21_law := true,
    sources := ["Tax Foundation 2025", "Truth Initiative 2025"] },
  { state := "Virginia",
    state_abbr := "VA",
    flavored_ecig_ban := "none",
    flavored_ecig_details := "No statewide restrictions on flavored e-cigarettes",
    has_ecig_tax := true,
    ecig_tax_rate := "$0.11 per mL (increased from $0.066 in 2024)",
    ecig_tax_structure := "per mL",
    indoor_vaping_ban := false,
    state_t21_law := true,
    recent_changes := "E-cig tax increased to $0.11/mL in 2024",
    sources := ["Tax Foundation 2025"] },
  { state := "Washington",
    state_abbr := "WA",
    flavored_ecig_ban := "partial",
    flavored_ecig_details := "State flavor ban on e-cigarettes",
    has_ecig_tax := true,
    ecig_tax_rate := "27% wholesale (open), $0.09/mL (closed)",
    ecig_tax_structure := "hybrid",
    indoor_vaping_ban := true,
    indoor_ban_details := "Comprehensive public vaping ban in indoor workplaces, restaurants, and bars",
    state_t21_law := true,
    sources := ["Tax Foundation 2025", "VapeRanger 2025"] },
  { state := "West Virginia",
    state_abbr := "WV",
    flavored_ecig_ban := "none",
    flavored_ecig_details := "No statewide restrictions on flavored e-cigarettes",
    has_ecig_tax := true,
    ecig_tax_rate := "17.5% manufacturer (open), $0.075/mL (closed)",
    ecig_tax_structure := "hybrid",
    indoor_vaping_ban := false,
    state_t21_law := true,
    sources := ["Tax Foundation 2025"] },
  { state := "Wisconsin",
    state_abbr := "WI",
    flavored_ecig_ban := "partial",
    flavored_ecig_details := "Similar law to North Carolina requiring FDA-authorized products, set for Sep 1, 2025 (may be subject to legal challenges)",
    flavored_ecig_effective_date := some "2025-09-01",
    has_ecig_tax := true,
    ecig_tax_rate := "5¢ per mL",
    ecig_tax_structure := "per mL",
    indoor_vaping_ban := false,
    state_t21_law := true,
    recent_changes := "FDA-authorized product requirement scheduled for Sep 2025, facing legal challenges",
    sources := ["Tax Foundation 2025", "VapeRanger 2025"] },
  { state := "Wyoming",
    state_abbr := "WY",
    flavored_ecig_ban := "none",
    flavored_ecig_details := "No statewide restrictions on flavored e-cigarettes",
    has_ecig_tax := true,
    ecig_tax_rate := "15% wholesale",
    ecig_tax_structure := "wholesale %",
    indoor_vaping_ban := false,
    state_t21_law := true,
    sources := ["Tax Foundation 2025"] },
  { state := "District of Columbia",
    state_abbr := "DC",
    flavored_ecig_ban := "comprehensive",
    flavored_ecig_details := "Comprehensive flavor restrictions on e-cigarettes",
    has_ecig_tax := true,
    ecig_tax_rate := "96% wholesale",
    ecig_tax_structure := "wholesale %",
    indoor_vaping_ban := true,
    state_t21_law := true,
    sources := ["Tax Foundation 2025", "VapeRanger 2025"] }
]

/-- JSON values, as produced by Python's `json` module for this program:
null, booleans, integers, strings, arrays and objects (objects keep key
order, as `json.dump` serializes dict insertion order). -/
inductive Json where
  | null : Json
  | bool : Bool → Json
  | num : Nat → Json
  | str : String → Json
  | arr : List Json → Json
  | obj : List (String × Json) → Json
deriving Repr

/-- An optional string serializes as `null` when unset, as in Python where
`asdict` keeps `None` and `json.dump` writes it as `null`. -/
def optStr : Option String → Json
  | none => Json.null
  | some s => Json.str s

/-- Mirror of `StateTobaccoPolicy.to_dict` (src/state_policies.py lines
60-62): `asdict(self)` yields the fields as a dict in declaration order,
recursing into the string lists. -/
def StateTobaccoPolicy.to_dict (s : StateTobaccoPolicy) : List (String × Json) :=
  [ ("state", Json.str s.state),
    ("state_abbr", Json.str s.state_abbr),
    ("flavored_ecig_ban", Json.str s.flavored_ecig_ban),
    ("flavored_ecig_details", Json.str s.flavored_ecig_details),
    ("flavored_ecig_effective_date", optStr s.flavored_ecig_effective_date),
    ("menthol_cig_ban", Json.bool s.menthol_cig_ban),
    ("menthol_ban_details", Json.str s.menthol_ban_details),
    ("menthol_effective_date", optStr s.menthol_effective_date),
    ("has_ecig_tax", Json.bool s.has_ecig_tax),
    ("ecig_tax_rate", Json.str s.ecig_tax_rate),
    ("ecig_tax_structure", Json.str s.ecig_tax_structure),
    ("indoor_vaping_ban", Json.bool s.indoor_vaping_ban),
    ("indoor_ban_details", Json.str s.indoor_ban_details),
    ("minimum_age", Json.num s.minimum_age),
    ("state_t21_law", Json.bool s.state_t21_law),
    ("licensing_required", Json.bool s.licensing_required),
    ("license_fee", Json.str s.license_fee),
    ("local_restrictions", Json.arr (s.local_restrictions.map Json.str)),
    ("recent_changes", Json.str s.recent_changes),
    ("sources", Json.arr (s.sources.map Json.str)) ]

/-- The `metadata` object of the exported document, from the literal in
`export_to_json` (src/state_policies.py lines 759-771). -/
def export_metadata : Json :=
  Json.obj
    [ ("last_updated", Json.str "2024-12-24"),
      ("data_version", Json.str "1.0"),
      ("sources", Json.arr
        [ Json.str "Truth Initiative Flavored Tobacco Restrictions Q2 2025",
          Json.str "Campaign for Tobacco-Free Kids State Policy Database 2024",
          Json.str "Tax Foundation Vaping Taxes by State 2025",
          Json.str "CDC STATE System",
          Json.str "FDA Tobacco 21 Resources",
          Json.str "State Legislative Sources" ]),
      ("notes", Json.str "Federal T21 law applies to all states. Data current as of December 2024/January 2025.") ]

/-- The `states` array of the exported document:
`[state.to_dict() for state in STATES]` (src/state_policies.py line 772). -/
def export_states : List Json :=
  STATES.map (fun s => Json.obj s.to_dict)

/-- The whole document `data` built by `export_to_json`
(src/state_policies.py lines 758-773): two top-level keys, `metadata`
then `states`. -/
def export_doc : Json :=
  Json.obj [("metadata", export_metadata), ("states", Json.arr export_states)]

mutual

/-- Deterministic serialization of a JSON value, modelling
`json.dump(data, f, indent=2)` as a pure function of the document (the
indentation layout is fixed by the document alone, so a compact rendering
suffices for byte-stability statements). -/
def Json.dump : Json → String
  | Json.null => "null"
  | Json.bool b => if b then "true" else "false"
  | Json.num n => toString n
  | Json.str s => "\"" ++ s ++ "\""
  | Json.arr xs => "[" ++ Json.dumpList xs ++ "]"
  | Json.obj kvs => "\x7b" ++ Json.dumpObj kvs ++ "\x7d"

/-- Comma-separated rendering of an array's elements. -/
def Json.dumpList : List Json → String
  | [] => ""
  | [x] => Json.dump x
  | x :: y :: xs => Json.dump x ++ ", " ++ Json.dumpList (y :: xs)

/-- Comma-separated rendering of an object's key/value pairs. -/
def Json.dumpObj : List (String × Json) → String
  | [] => ""
  | [(k, v)] => "\"" ++ k ++ "\": " ++ Json.dump v
  | (k, v) :: p :: xs => "\"" ++ k ++ "\": " ++ Json.dump v ++ ", " ++ Json.dumpObj (p :: xs)

end

/-- A file system as an association of path to file contents; `open(f, 'w')`
followed by a full write overwrites the file at its path. -/
abbrev FileSystem := List (String × String)

/-- Overwrite semantics of `open(filename, 'w')` + write: replace the
contents at the path if present, else create the file. -/
def writeFile : FileSystem → String → String → FileSystem
  | [], name, content => [(name, content)]
  | (n, c) :: rest, name, content =>
      if n = name then (name, content) :: rest
      else (n, c) :: writeFile rest name content

/-- Mirror of `export_to_json` (src/state_policies.py lines 756-776) on the
file-system model: build the fixed document from `STATES` and the fixed
metadata and write its serialization to `filename` (default
"state_policies.json"). -/
def export_to_json (fs : FileSystem) (filename : String := "state_policies.json") : FileSystem :=
  writeFile fs filename (Json.dump export_doc)

/-- The aggregate counts computed by `generate_summary_stats`
(src/state_policies.py lines 781-794); the function prints them and
returns nothing, so the model records the computed numbers. -/
structure SummaryStats where
  total_states : Nat
  comprehensive_ban : Nat
  partial_ban : Nat
  no_ban : Nat
  menthol_bans : Nat
  with_tax : Nat
  without_tax : Nat
  indoor_bans : Nat
deriving DecidableEq, Repr

/-- Mirror of the computations in `generate_summary_stats`
(src/state_policies.py lines 783-794): each `sum(1 for s in STATES if p s)`
is `List.countP`. -/
def generate_summary_stats : SummaryStats :=
  { total_states := STATES.length,
    comprehensive_ban := STATES.countP (fun s => s.flavored_ecig_ban == "comprehensive"),
    partial_ban := STATES.countP (fun s => s.flavored_ecig_ban == "partial"),
    no_ban := STATES.countP (fun s => s.flavored_ecig_ban == "none"),
    menthol_bans := STATES.countP (fun s => s.menthol_cig_ban),
    with_tax := STATES.countP (fun s => s.has_ecig_tax),
    without_tax := STATES.length - STATES.countP (fun s => s.has_ecig_tax),
    indoor_bans := STATES.countP (fun s => s.indoor_vaping_ban) }

/-- The hard-coded parenthetical line printed under "MENTHOL CIGARETTE
BANS:" (src/state_policies.py line 811). -/
def menthol_parenthetical : String := "  (Massachusetts, California)"

/-- The 50 standard U.S. state postal codes plus "DC", as the spec's
reference set for the abbreviation invariant (stated from the spec's words,
for comparison with the catalog). -/
def standard_postal_codes : List String :=
  [ "AL", "AK", "AZ", "AR", "CA", "CO", "CT", "DE", "FL", "GA",
    "HI", "ID", "IL", "IN", "IA", "KS", "KY", "LA", "ME", "MD",
    "MA", "MI", "MN", "MS", "MO", "MT", "NE", "NV", "NH", "NJ",
    "NM", "NY", "NC", "ND", "OH", "OK", "OR", "PA", "RI", "SC",
    "SD", "TN", "TX", "UT", "VT", "VA", "WA", "WV", "WI", "WY", "DC" ]

/-- Keys of a JSON object in order; `[]` on non-objects. -/
def Json.keys : Json → List String
  | Json.obj kvs => kvs.map Prod.fst
  | _ => []

/-- Value under a key of a JSON object, as a JSON consumer reads the
exported document back. -/
def Json.lookupKey : Json → String → Option Json
  | Json.obj kvs, k => kvs.lookup k
  | _, _ => none

/-- Whether a JSON value is a string. -/
def Json.isString : Json → Bool
  | Json.str _ => true
  | _ => false

/-- Whether a JSON value is an array of strings. -/
def Json.isStringArray : Json → Bool
  | Json.arr xs => xs.all Json.isString
  | _ => false

/-- Length of a JSON array; `0` on non-arrays. -/
def Json.arrLength : Json → Nat
  | Json.arr xs => xs.length
  | _ => 0

/-- Overwriting the same path twice keeps only the last write. -/
theorem writeFile_writeFile (fs : FileSystem) (n c c' : String) :
    writeFile (writeFile fs n c) n c' = writeFile fs n c' := by
  induction fs with
  | nil => simp [writeFile]
  | cons p rest ih =>
      obtain ⟨m, d⟩ := p
      by_cases h : m = n
      · subst h
        simp [writeFile]
      · simp [writeFile, h, ih]

/-- Reading back the path just written yields the written contents. -/
theorem lookup_writeFile (fs : FileSystem) (n c : String) :
    (writeFile fs n c).lookup n = some c := by
  induction fs with
  | nil => simp [writeFile, List.lookup]
  | cons p rest ih =>
      obtain ⟨m, d⟩ := p
      by_cases h : m = n
      · subst h
        simp [writeFile, List.lookup]
      · have hnm : (n == m) = false := by
          rw [beq_eq_false_iff_ne]
          exact fun e => h e.symm
        simp [writeFile, List.lookup, h, hnm, ih]

/-- C1: The catalog `STATES` contains exactly 51 records, the `state_abbr`
values have no duplicate, and their set equals the 50 standard U.S. state
postal codes plus "DC". -/
theorem states_catalog_size_and_abbreviations :
    STATES.length = 51 ∧
    (STATES.map (fun s => s.state_abbr)).Nodup ∧
    (STATES.map (fun s => s.state_abbr)).toFinset = standard_postal_codes.toFinset :=
  ⟨by decide, by decide, rfl⟩

/-- C2 counterexample: the claim that `generate_summary_stats` computes a
comprehensive-ban count of 6 together with a total of 51 is false on the
catalog: the authored data holds 7 records with category
"comprehensive". -/
theorem summary_comprehensive_count_not_six :
    ¬ (generate_summary_stats.comprehensive_ban = 6 ∧
       generate_summary_stats.total_states = 51) := by decide

/-- C2 (amended): `generate_summary_stats` computes a comprehensive-ban
count of 7 and a total jurisdiction count of 51. -/
theorem summary_comprehensive_count_and_total :
    generate_summary_stats.comprehensive_ban = 7 ∧
    generate_summary_stats.total_states = 51 := by decide

/-- C3: the exported `states` array has length 51 and, position by
position, each element's "state_abbr" value is the `state_abbr` of the
catalog record at the same index, so the output order equals the catalog's
authored order. -/
theorem export_states_order_preserved :
    export_states.length = 51 ∧
    export_states.map (fun j => j.lookupKey "state_abbr")
      = STATES.map (fun s => some (Json.str s.state_abbr)) :=
  ⟨rfl, rfl⟩

/-- C4: every record's `flavored_ecig_ban` lies in the fixed vocabulary
\x7bcomprehensive, partial, none\x7d, and the three per-category counts of
the summary reporter sum to 51. -/
theorem flavored_ban_vocabulary_and_partition :
    (∀ s ∈ STATES,
        s.flavored_ecig_ban ∈ (["comprehensive", "partial", "none"] : List String)) ∧
    generate_summary_stats.comprehensive_ban + generate_summary_stats.partial_ban +
      generate_summary_stats.no_ban = 51 := by
  constructor
  · decide
  · decide

/-- C5: for a record whose optional flavored-ban effective date is unset,
the exported JSON field is `null`, never the empty string. -/
theorem unset_date_exports_null (s : StateTobaccoPolicy)
    (h : s.flavored_ecig_effective_date = none) :
    (s.to_dict).lookup "flavored_ecig_effective_date" = some Json.null ∧
    (s.to_dict).lookup "flavored_ecig_effective_date" ≠ some (Json.str "") := by
  have hv : (s.to_dict).lookup "flavored_ecig_effective_date"
      = optStr s.flavored_ecig_effective_date := rfl
  rw [hv, h]
  exact ⟨rfl, fun hc => Json.noConfusion (Option.some.inj hc)⟩

/-- C5 witness: the Alabama record (index 0) sets no
`flavored_ecig_effective_date`, and its exported field is `null`. -/
theorem unset_date_exports_null_witness :
    ((STATES.get ⟨0, by decide⟩).to_dict).lookup "flavored_ecig_effective_date"
      = some Json.null ∧
    ((STATES.get ⟨0, by decide⟩).to_dict).lookup "flavored_ecig_effective_date"
      ≠ some (Json.str "") :=
  unset_date_exports_null (STATES.get ⟨0, by decide⟩) rfl

/-- C6: exporting twice to the same path leaves the identical file system,
and the contents at the path are the fixed serialization of the fixed
document, with no run-dependent values. -/
theorem export_to_json_idempotent (fs : FileSystem) (filename : String) :
    export_to_json (export_to_json fs filename) filename = export_to_json fs filename ∧
    (export_to_json fs filename).lookup filename = some (Json.dump export_doc) :=
  ⟨writeFile_writeFile fs filename _ _, lookup_writeFile fs filename _⟩

/-- C7: the exported document is an object with exactly the top-level keys
`metadata` and `states`, in that order; `metadata` holds a last-updated
string, a data-version string, an array of source-description strings and
notes text, and the `states` array has length 51. -/
theorem export_doc_toplevel_shape :
    export_doc.keys = ["metadata", "states"] ∧
    export_metadata.keys = ["last_updated", "data_version", "sources", "notes"] ∧
    (export_metadata.lookupKey "last_updated").map Json.isString = some true ∧
    (export_metadata.lookupKey "data_version").map Json.isString = some true ∧
    (export_metadata.lookupKey "sources").map Json.isStringArray = some true ∧
    (export_metadata.lookupKey "notes").map Json.isString = some true ∧
    (export_doc.lookupKey "states").map Json.arrLength = some 51 :=
  ⟨rfl, rfl, rfl, rfl, rfl, rfl, rfl⟩

/-- C8: every record in the catalog cites at least one source. -/
theorem every_record_has_sources : ∀ s ∈ STATES, s.sources ≠ [] := by decide

/-- C8 witness: the first record (Alabama) has a non-empty source list. -/
theorem every_record_has_sources_witness :
    (STATES.get ⟨0, by decide⟩).sources ≠ [] :=
  every_record_has_sources (STATES.get ⟨0, by decide⟩) (STATES.get_mem 0 (by decide))

/-- C9: whenever `has_ecig_tax` is set, `ecig_tax_structure` is a
non-empty string from the fixed vocabulary; and exactly the Alaska and
Iowa records carry a non-empty `ecig_tax_rate` with `has_ecig_tax`
false. -/
theorem ecig_tax_structure_vocabulary :
    (∀ s ∈ STATES, s.has_ecig_tax = true →
        s.ecig_tax_structure ∈
          (["wholesale %", "per mL", "retail %", "per cartridge",
            "manufacturer %", "hybrid"] : List String) ∧
        s.ecig_tax_structure ≠ "") ∧
    (STATES.filter (fun s => !s.has_ecig_tax && !(s.ecig_tax_rate == ""))).map
      (fun s => s.state_abbr) = ["AK", "IA"] := by
  constructor
  · decide
  · decide

/-- C10: exactly two records have `menthol_cig_ban` set, the summary
counts 2, and those records are Massachusetts and California, the two
states listed by the hard-coded parenthetical line the reporter prints. -/
theorem menthol_ban_count_and_states :
    generate_summary_stats.menthol_bans = 2 ∧
    ((STATES.filter (fun s => s.menthol_cig_ban)).map (fun s => s.state)).Perm
      ["Massachusetts", "California"] ∧
    menthol_parenthetical
      = "  (" ++ String.intercalate ", " ["Massachusetts", "California"] ++ ")" :=
  ⟨by decide, by decide, rfl⟩
